import Mathlib

/-!
Shallow embedding of `src/raft/client.rs` (raftor): the `RaftClient` actor,
its handlers for `ClientRequest`, `ChangeRaftClusterConfig`, `AddNode`,
`RemoveNode` and `InitRaft`, and the free function `handle_client_response`.

Each actix handler is modelled as a pure Lean function from the actor state
plus an oracle of environment replies (mailbox results of `net.send`,
`raft.send`, delivery of remote messages, timer completions) to an ordered
trace of observable actions.  A Rust `panic!` terminates the trace with a
`panic` action; nothing after it executes, matching unwinding semantics.
-/

namespace Raftor

/-- NodeId from actix_raft: an opaque comparable identifier, modelled as Nat. -/
abbrev NodeId := Nat

/-- Modelled from the spec: `MemoryStorageData` (src/raft/storage.rs, not under
src/) is the ApplicationCommand variant type: two reserved membership
mutations `Add`/`Remove` carrying a NodeId (used as such in client.rs), plus
an opaque application-level mutation. -/
inductive MemoryStorageData
  | Add (id : NodeId)
  | Remove (id : NodeId)
  | app (payload : Nat)
deriving DecidableEq

/-- Modelled from the spec: opaque application-level error type
`MemoryStorageError` (src/raft/storage.rs, not under src/). -/
inductive MemoryStorageError
  | err (code : Nat)
deriving DecidableEq

/-- Modelled from the spec: opaque successful reply
`ClientPayloadResponse` of the consensus engine. -/
inductive ClientPayloadResponse
  | response (tag : Nat)
deriving DecidableEq

/-- `ClientError` of actix_raft, at the interface boundary used by
`handle_client_response`: `Internal`, `Application(err)` and
`ForwardToLeader { .. }` (payload ignored by the code via `..`). -/
inductive ClientError
  | Internal
  | Application (e : MemoryStorageError)
  | ForwardToLeader (leader : Option NodeId)
deriving DecidableEq

deriving instance DecidableEq for Except

/-- `type ClientResponseHandler = Result<ClientPayloadResponse, ClientError>`. -/
abbrev ClientResponseHandler := Except ClientError ClientPayloadResponse

/-- `EntryNormal { data }` wrapping an ApplicationCommand. -/
structure EntryNormal where
  data : MemoryStorageData
deriving DecidableEq

/-- `ResponseMode` of actix_raft: wait until committed, wait until applied. -/
inductive ResponseMode
  | Committed
  | Applied
deriving DecidableEq

/-- `type Payload = ClientPayload<...>`: an entry with a response mode. -/
structure Payload where
  entry : EntryNormal
  responseMode : ResponseMode
deriving DecidableEq

/-- `ClientPayload::new(entry, mode)`. -/
def Payload.new (entry : EntryNormal) (mode : ResponseMode) : Payload :=
  ⟨entry, mode⟩

/-- `ProposeConfigChange` of actix_raft: members to add and to remove. -/
structure ProposeConfigChange where
  add_members : List NodeId
  remove_members : List NodeId
deriving DecidableEq

/-- `ProposeConfigChange::new(add, remove)`. -/
def ProposeConfigChange.new (a r : List NodeId) : ProposeConfigChange :=
  ⟨a, r⟩

/-- Modelled from the spec: error of the engine's config-change proposal
(`ProposeConfigChangeError` of actix_raft), opaque. -/
inductive ProposeConfigChangeError
  | err (code : Nat)
deriving DecidableEq

/-- Reply carried inside a delivered `ProposeConfigChange` message:
`Result<(), ProposeConfigChangeError>`; the code ignores it (`_res`). -/
abbrev ConfigChangeResponse := Except ProposeConfigChangeError Unit

/-- An `Addr<Network>`-like handle, identified by an opaque tag so that
distinct handles are distinguishable. -/
structure NetAddr where
  tag : Nat
deriving DecidableEq

/-- Result of `addr.send(msg)`: the handler's reply, or a mailbox/delivery
failure (actix `MailboxError`). -/
inductive SendResult (α : Type)
  | ok (a : α)
  | mailboxErr
deriving DecidableEq

/-- The local consensus engine instance (`MemRaft`), as constructed by
`RaftBuilder::new`, recording what it was bound to. -/
structure MemRaft where
  id : NodeId
  members : List NodeId
  net : NetAddr
  ring : Nat
  server : Nat
deriving DecidableEq

/-- Modelled from the spec: `RaftBuilder::new(id, nodes, net, ring, server)`
(src/raft/mod.rs, not under src/) constructs the local consensus engine bound
to the local NodeId, the effective membership, the network dispatcher, the
shard ring and the server handle. -/
def RaftBuilder.new (id : NodeId) (nodes : List NodeId) (net : NetAddr)
    (ring : Nat) (server : Nat) : MemRaft :=
  ⟨id, nodes, net, ring, server⟩

/-- State of the `RaftClient` actor: `{ id, ring, raft, registry, net }`.
`ring` and `registry` are opaque handles, modelled as tags. -/
structure RaftClientState where
  id : NodeId
  ring : Nat
  registry : Nat
  raft : Option MemRaft
  net : Option NetAddr
deriving DecidableEq

/-- `RaftClient::new(id, ring, registry)`: raft and net start absent. -/
def RaftClient.new (id : NodeId) (ring : Nat) (registry : Nat) : RaftClientState :=
  { id := id, ring := ring, registry := registry, raft := none, net := none }

/-- Messages the actor sends to itself with `ctx.notify`. -/
inductive SelfMsg
  | clientRequest (d : MemoryStorageData)
  | addNode (n : NodeId)
  | changeConfig (add : List NodeId) (rem : List NodeId)
deriving DecidableEq

/-- Queries sent to the local `Network` actor. -/
inductive NetMsg
  | getCurrentLeader
  | getNodeById (n : NodeId)
deriving DecidableEq

/-- Messages wrapped in `SendRemoteMessage` and delivered to a remote node. -/
inductive RemoteMsg
  | clientPayload (p : Payload)
  | configChange (add : List NodeId) (rem : List NodeId)
deriving DecidableEq

/-- Tags for the `println!` calls of client.rs. -/
inductive LogMsg
  | resendingClientRequest
  | unexpectedApplicationError
  | forwardToLeaderReceived
  | aboutToDoSomething
  | aboutToProposeConfigChange
  | sendingRemoteProposal
  | sendError
  | initedWithConfig
deriving DecidableEq

/-- Reasons a handler panics (`unwrap` on `None`, `panic!` in a `map_err`,
`panic!("Node .. not found")`). -/
inductive PanicReason
  | unwrapNone
  | mailboxFailure
  | nodeNotFound (n : NodeId)
deriving DecidableEq

/-- Observable actions of a handler, in program order. -/
inductive Action
  | netSend (q : NetMsg)
  | raftSend (p : Payload)
  | raftConfigSend (p : ProposeConfigChange)
  | raftInitSend (nodes : List NodeId)
  | remoteSend (target : NetAddr) (m : RemoteMsg)
  | notify (m : SelfMsg)
  | log (m : LogMsg)
  | panic (r : PanicReason)
  | delaySecs (n : Nat)
  | registerHandlers
deriving DecidableEq

/-- `fn add_node(id) -> MemoryStorageData { MemoryStorageData::Add(id) }`. -/
def add_node (id : NodeId) : MemoryStorageData :=
  MemoryStorageData.Add id

/-- `fn remove_node(id) -> MemoryStorageData { MemoryStorageData::Remove(id) }`. -/
def remove_node (id : NodeId) : MemoryStorageData :=
  MemoryStorageData.Remove id

/-- `fn handle_client_response(res, ctx, msg)`: success does nothing;
`Internal` logs and re-notifies the identical `ClientRequest`;
`Application(err)` only logs; `ForwardToLeader` logs and re-notifies the
identical `ClientRequest`. `msg` is the original command data. -/
def handle_client_response (res : ClientResponseHandler)
    (msg : MemoryStorageData) : List Action :=
  match res with
  | .ok _ => []
  | .error ClientError.Internal =>
      [Action.log LogMsg.resendingClientRequest,
       Action.notify (SelfMsg.clientRequest msg)]
  | .error (ClientError.Application _) =>
      [Action.log LogMsg.unexpectedApplicationError]
  | .error (ClientError.ForwardToLeader _) =>
      [Action.log LogMsg.forwardToLeaderReceived,
       Action.notify (SelfMsg.clientRequest msg)]

/-- Environment replies consulted by `Handler<ClientRequest>`: the
`GetCurrentLeader` reply, the local `raft.send(payload)` reply, the
`GetNodeById(leader)` reply, and the `SendRemoteMessage(payload)` reply. -/
structure ClientOracle where
  leaderReply : SendResult (Option NodeId)
  raftReply : SendResult ClientResponseHandler
  nodeReply : SendResult (Option NetAddr)
  remoteReply : SendResult ClientResponseHandler
deriving DecidableEq

/-- `Handler<ClientRequest> for RaftClient` (client.rs lines 207-252):
wraps the command in `EntryNormal` then `Payload::new(entry, Applied)`;
unwraps `self.net` (panic if absent); queries the current leader (panic on
mailbox error, panic on `unwrap` of a `None` leader); if the leader is the
local id and a local engine exists, sends the payload to the engine and
evaluates the reply via `handle_client_response`; otherwise resolves the
leader via `GetNodeById` (mailbox error panics "Node .. not found"), logs,
unwraps the resolved target (panic on `None`), delivers the payload as a
remote message (delivery error only logged) and evaluates the reply via
`handle_client_response`. -/
def handleClientRequest (st : RaftClientState) (o : ClientOracle)
    (d : MemoryStorageData) : List Action :=
  let entry : EntryNormal := ⟨d⟩
  let payload := Payload.new entry ResponseMode.Applied
  match st.net with
  | none => [Action.panic PanicReason.unwrapNone]
  | some _ =>
    Action.netSend NetMsg.getCurrentLeader ::
      (match o.leaderReply with
       | SendResult.mailboxErr => [Action.panic PanicReason.mailboxFailure]
       | SendResult.ok none => [Action.panic PanicReason.unwrapNone]
       | SendResult.ok (some leader) =>
         match (if leader = st.id then st.raft else none) with
         | some _ =>
           Action.raftSend payload ::
             (match o.raftReply with
              | SendResult.mailboxErr => [Action.panic PanicReason.mailboxFailure]
              | SendResult.ok res => handle_client_response res d)
         | none =>
           Action.netSend (NetMsg.getNodeById leader) ::
             (match o.nodeReply with
              | SendResult.mailboxErr => [Action.panic (PanicReason.nodeNotFound leader)]
              | SendResult.ok none =>
                  [Action.log LogMsg.aboutToDoSomething,
                   Action.panic PanicReason.unwrapNone]
              | SendResult.ok (some tgt) =>
                  Action.log LogMsg.aboutToDoSomething ::
                  Action.remoteSend tgt (RemoteMsg.clientPayload payload) ::
                    (match o.remoteReply with
                     | SendResult.mailboxErr => [Action.log LogMsg.sendError]
                     | SendResult.ok res => handle_client_response res d)))

/-- Environment replies consulted by `Handler<ChangeRaftClusterConfig>`. -/
structure ConfigOracle where
  leaderReply : SendResult (Option NodeId)
  configReply : SendResult ConfigChangeResponse
  nodeReply : SendResult (Option NetAddr)
  remoteReply : SendResult Unit
deriving DecidableEq

/-- `Handler<ChangeRaftClusterConfig> for RaftClient` (client.rs lines
78-127): builds `ProposeConfigChange::new(add, remove)`; unwraps `self.net`
(panic if absent); queries the current leader (panic on mailbox error and on
a `None` leader); if the leader is the local id and an engine exists, logs,
sends the proposal to the engine (panic on mailbox error) and — ignoring the
proposal's own `Result` (`_res`) — notifies `AddNode(id)` for every id in the
add list; otherwise resolves the leader (mailbox error panics
"Node .. not found"), logs, unwraps the target (panic on `None`) and forwards
the raw config-change message (delivery error only logged). -/
def handleChangeConfig (st : RaftClientState) (o : ConfigOracle)
    (addL remL : List NodeId) : List Action :=
  let payload := ProposeConfigChange.new addL remL
  match st.net with
  | none => [Action.panic PanicReason.unwrapNone]
  | some _ =>
    Action.netSend NetMsg.getCurrentLeader ::
      (match o.leaderReply with
       | SendResult.mailboxErr => [Action.panic PanicReason.mailboxFailure]
       | SendResult.ok none => [Action.panic PanicReason.unwrapNone]
       | SendResult.ok (some leader) =>
         match (if leader = st.id then st.raft else none) with
         | some _ =>
           Action.log LogMsg.aboutToProposeConfigChange ::
           Action.raftConfigSend payload ::
             (match o.configReply with
              | SendResult.mailboxErr => [Action.panic PanicReason.mailboxFailure]
              | SendResult.ok _ =>
                  addL.map (fun i => Action.notify (SelfMsg.addNode i)))
         | none =>
           Action.netSend (NetMsg.getNodeById leader) ::
             (match o.nodeReply with
              | SendResult.mailboxErr => [Action.panic (PanicReason.nodeNotFound leader)]
              | SendResult.ok none =>
                  [Action.log LogMsg.sendingRemoteProposal,
                   Action.panic PanicReason.unwrapNone]
              | SendResult.ok (some tgt) =>
                  Action.log LogMsg.sendingRemoteProposal ::
                  Action.remoteSend tgt (RemoteMsg.configChange addL remL) ::
                    (match o.remoteReply with
                     | SendResult.mailboxErr => [Action.log LogMsg.sendError]
                     | SendResult.ok _ => [])))

/-- `Handler<AddNode>`: notify a `ClientRequest` carrying `add_node(id)`. -/
def handleAddNode (n : NodeId) : List Action :=
  let payload := add_node n
  [Action.notify (SelfMsg.clientRequest payload)]

/-- `Handler<RemoveNode>` (client.rs lines 141-149): notify a `ClientRequest`
carrying `remove_node(id)`, then notify
`ChangeRaftClusterConfig(vec![], vec![id])`, in this order. -/
def handleRemoveNode (n : NodeId) : List Action :=
  let payload := remove_node n
  [Action.notify (SelfMsg.clientRequest payload),
   Action.notify (SelfMsg.changeConfig [] [n])]

/-- The `InitRaft` message: `{ nodes, net, server, join_mode }`. -/
structure InitRaft where
  nodes : List NodeId
  net : NetAddr
  server : Nat
  join_mode : Bool
deriving DecidableEq

/-- Environment replies consulted by the bootstrap chain spawned from
`Handler<InitRaft>`: completion of the two 5-second delays (a timer error is
mapped to `()` and silently stops the chain) and the `InitWithConfig` reply. -/
structure InitOracle where
  delay1Ok : Bool
  initReply : SendResult Unit
  delay2Ok : Bool
deriving DecidableEq

/-- The future spawned by `Handler<InitRaft>` when not in join mode: a
5-second delay, then `raft.send(InitWithConfig::new(nodes))` (panic on
mailbox error), then a log line and a second 5-second delay, then a notify of
`ClientRequest(add_node(self.id))`. -/
def initSpawn (id : NodeId) (nodes : List NodeId) (o : InitOracle) : List Action :=
  Action.delaySecs 5 ::
    (if o.delay1Ok then
      Action.raftInitSend nodes ::
        (match o.initReply with
         | SendResult.mailboxErr => [Action.panic PanicReason.mailboxFailure]
         | SendResult.ok _ =>
             Action.log LogMsg.initedWithConfig :: Action.delaySecs 5 ::
               (if o.delay2Ok then
                 [Action.notify (SelfMsg.clientRequest (add_node id))]
                else []))
     else [])

/-- `Handler<InitRaft> for RaftClient` (client.rs lines 151-199): store the
network handle in `self.net`; compute the effective membership (the singleton
`[self.id]` in join mode, the full supplied list otherwise); build the engine
with `RaftBuilder::new`; register handlers; store the engine in `self.raft`;
in join mode return immediately, otherwise spawn the bootstrap chain. Both
fields are assigned unconditionally — there is no already-initialized guard. -/
def handleInitRaft (st : RaftClientState) (msg : InitRaft) (o : InitOracle) :
    RaftClientState × List Action :=
  let nodes := if msg.join_mode then [st.id] else msg.nodes
  let raft := RaftBuilder.new st.id nodes msg.net st.ring msg.server
  ({ st with net := some msg.net, raft := some raft },
   if msg.join_mode then [Action.registerHandlers]
   else Action.registerHandlers :: initSpawn st.id nodes o)

/-- The actor's self-message dispatch: a notified `SelfMsg` is handled by the
corresponding handler of `RaftClient`. -/
def dispatchSelfMsg (st : RaftClientState) (co : ClientOracle)
    (cfo : ConfigOracle) : SelfMsg → List Action
  | SelfMsg.clientRequest d => handleClientRequest st co d
  | SelfMsg.addNode n => handleAddNode n
  | SelfMsg.changeConfig a r => handleChangeConfig st cfo a r

/-- States of the `RaftClient` actor reachable over the process lifetime:
the fresh state of `RaftClient::new`, followed by any number of `InitRaft`
messages — the only handler that mutates the actor's fields. -/
inductive Reachable : RaftClientState → Prop
  | started (id : NodeId) (ring reg : Nat) : Reachable (RaftClient.new id ring reg)
  | initStep (st : RaftClientState) (msg : InitRaft) (o : InitOracle) :
      Reachable st → Reachable (handleInitRaft st msg o).1

/-- Trace observations: does an action satisfy a selector. -/
def isRaftSend : Action → Bool
  | Action.raftSend _ => true
  | _ => false

def isRemoteSend : Action → Bool
  | Action.remoteSend _ _ => true
  | _ => false

def isPanic : Action → Bool
  | Action.panic _ => true
  | _ => false

/-- Count the actions of a trace selected by `f`. -/
def countSends (f : Action → Bool) : List Action → Nat
  | [] => 0
  | a :: l => (if f a then 1 else 0) + countSends f l

def countRaftSends (l : List Action) : Nat := countSends isRaftSend l

def countRemoteSends (l : List Action) : Nat := countSends isRemoteSend l

/-- Whether a trace reaches a `panic!` (process termination). -/
def hasPanic (l : List Action) : Bool := l.any isPanic

/-- The proposal payload an action carries toward the engine or a remote
leader, if any. -/
def proposalOf : Action → Option Payload
  | Action.raftSend p => some p
  | Action.remoteSend _ (RemoteMsg.clientPayload p) => some p
  | _ => none

/-- All proposal payloads sent in a trace, in order. -/
def sentProposals : List Action → List Payload
  | [] => []
  | a :: l =>
    match proposalOf a with
    | some p => p :: sentProposals l
    | none => sentProposals l

/-! Helper lemmas shared by several results. -/

/-- `handle_client_response` never sends to the engine or a remote node:
its actions are logs and self-notifications only. -/
theorem hcr_counts (r : ClientResponseHandler) (d : MemoryStorageData) :
    countRaftSends (handle_client_response r d) = 0
    ∧ countRemoteSends (handle_client_response r d) = 0 := by
  rcases r with r | r
  · cases r <;>
      simp [handle_client_response, countRaftSends, countRemoteSends, countSends,
        isRaftSend, isRemoteSend]
  · simp [handle_client_response, countRaftSends, countRemoteSends, countSends]

/-- `handle_client_response` sends no proposal payload. -/
theorem hcr_sent (r : ClientResponseHandler) (d : MemoryStorageData) :
    sentProposals (handle_client_response r d) = [] := by
  rcases r with r | r
  · cases r <;> simp [handle_client_response, sentProposals, proposalOf]
  · simp [handle_client_response, sentProposals]

/-- Reachability invariant: whenever the network handle is populated, the
engine instance is populated too (both are set together by `InitRaft`). -/
theorem reachable_net_imp_raft (st : RaftClientState) (h : Reachable st) :
    st.net.isSome → st.raft.isSome := by
  induction h with
  | started id ring reg => simp [RaftClient.new]
  | initStep st msg o h ih => simp [handleInitRaft]

/-- Claim C1: engine (or remote-delivery) responses evaluated by
`handle_client_response`: a success triggers no action; the recoverable
errors `Internal` and `ForwardToLeader` log and re-notify the identical
`ClientRequest` (which re-enters `handleClientRequest` from the top, with no
delay action, hence no backoff); an application-level error is only logged
and never re-notified. -/
theorem claim_c1_client_response_policy (d : MemoryStorageData)
    (e : MemoryStorageError) (r : ClientPayloadResponse) (ld : Option NodeId) :
    handle_client_response (Except.ok r) d = []
    ∧ handle_client_response (Except.error ClientError.Internal) d =
        [Action.log LogMsg.resendingClientRequest,
         Action.notify (SelfMsg.clientRequest d)]
    ∧ handle_client_response (Except.error (ClientError.Application e)) d =
        [Action.log LogMsg.unexpectedApplicationError]
    ∧ handle_client_response (Except.error (ClientError.ForwardToLeader ld)) d =
        [Action.log LogMsg.forwardToLeaderReceived,
         Action.notify (SelfMsg.clientRequest d)]
    ∧ (∀ st co cfo, dispatchSelfMsg st co cfo (SelfMsg.clientRequest d) =
        handleClientRequest st co d) :=
  ⟨rfl, rfl, rfl, rfl, fun _ _ _ => rfl⟩

/-- Claim C4: the `RemoveNode` handler first notifies the `ClientRequest`
that records `remove member N` in the log, and only afterwards notifies the
config change removing N from the membership set, for every N. -/
theorem claim_c4_remove_member_sequencing (n : NodeId) :
    handleRemoveNode n =
      [Action.notify (SelfMsg.clientRequest (MemoryStorageData.Remove n)),
       Action.notify (SelfMsg.changeConfig [] [n])] := rfl

/-- Claim C5: initialization in join mode builds the engine with membership
exactly the singleton of the local NodeId, irrespective of the supplied
membership list, and the handler returns immediately after registering
handlers: no `InitWithConfig` command, no delay and no self-add client
request is issued. -/
theorem claim_c5_join_mode_singleton (st : RaftClientState) (msg : InitRaft)
    (o : InitOracle) (h : msg.join_mode = true) :
    (handleInitRaft st msg o).1.raft =
      some (RaftBuilder.new st.id [st.id] msg.net st.ring msg.server)
    ∧ (handleInitRaft st msg o).2 = [Action.registerHandlers] := by
  simp [handleInitRaft, h]

/-- Witness for C5 at a concrete joining node: id 1, supplied members
`[1, 2, 3]`, join mode true. -/
theorem claim_c5_join_mode_singleton_witness :
    (handleInitRaft (RaftClient.new 1 0 0) ⟨[1, 2, 3], ⟨4⟩, 0, true⟩
        ⟨true, SendResult.ok (), true⟩).1.raft =
      some (RaftBuilder.new 1 [1] ⟨4⟩ 0 0)
    ∧ (handleInitRaft (RaftClient.new 1 0 0) ⟨[1, 2, 3], ⟨4⟩, 0, true⟩
        ⟨true, SendResult.ok (), true⟩).2 = [Action.registerHandlers] :=
  claim_c5_join_mode_singleton (RaftClient.new 1 0 0) ⟨[1, 2, 3], ⟨4⟩, 0, true⟩
    ⟨true, SendResult.ok (), true⟩ rfl

/-- Claim C6: initialization with join mode false runs the two-phase
bootstrap in order: a fixed 5-second settling delay, the `InitWithConfig`
command carrying the full supplied membership list, a second fixed 5-second
delay, then a local client request adding the local NodeId. -/
theorem claim_c6_bootstrap_sequence (st : RaftClientState) (msg : InitRaft)
    (o : InitOracle) (h : msg.join_mode = false) (h1 : o.delay1Ok = true)
    (hi : o.initReply = SendResult.ok ()) (h2 : o.delay2Ok = true) :
    (handleInitRaft st msg o).2 =
      [Action.registerHandlers, Action.delaySecs 5,
       Action.raftInitSend msg.nodes, Action.log LogMsg.initedWithConfig,
       Action.delaySecs 5,
       Action.notify (SelfMsg.clientRequest (add_node st.id))] := by
  simp [handleInitRaft, initSpawn, h, h1, hi, h2]

/-- Witness for C6 at a concrete founding node: id 1, supplied members
`[1, 2, 3]`, join mode false, both timers fire, init reply delivered. -/
theorem claim_c6_bootstrap_sequence_witness :
    (handleInitRaft (RaftClient.new 1 0 0) ⟨[1, 2, 3], ⟨4⟩, 0, false⟩
        ⟨true, SendResult.ok (), true⟩).2 =
      [Action.registerHandlers, Action.delaySecs 5,
       Action.raftInitSend [1, 2, 3], Action.log LogMsg.initedWithConfig,
       Action.delaySecs 5,
       Action.notify (SelfMsg.clientRequest (add_node 1))] :=
  claim_c6_bootstrap_sequence (RaftClient.new 1 0 0) ⟨[1, 2, 3], ⟨4⟩, 0, false⟩
    ⟨true, SendResult.ok (), true⟩ rfl rfl rfl rfl

/-- Claim C10: before any `InitRaft` message has been processed the network
handle is absent, and both the client-request handler and the config-change
handler immediately panic unwrapping it; being initialized is thus a
precondition for these handlers not to panic. -/
theorem claim_c10_uninitialized_panics (st : RaftClientState)
    (co : ClientOracle) (cfo : ConfigOracle) (d : MemoryStorageData)
    (addL remL : List NodeId) (h : st.net = none) :
    handleClientRequest st co d = [Action.panic PanicReason.unwrapNone]
    ∧ handleChangeConfig st cfo addL remL =
        [Action.panic PanicReason.unwrapNone] := by
  simp [handleClientRequest, handleChangeConfig, h]

/-- Witness for C10 at the fresh state of `RaftClient::new`. -/
theorem claim_c10_uninitialized_panics_witness :
    handleClientRequest (RaftClient.new 0 0 0)
        ⟨SendResult.mailboxErr, SendResult.mailboxErr, SendResult.mailboxErr,
         SendResult.mailboxErr⟩ (MemoryStorageData.Add 1) =
      [Action.panic PanicReason.unwrapNone]
    ∧ handleChangeConfig (RaftClient.new 0 0 0)
        ⟨SendResult.mailboxErr, SendResult.mailboxErr, SendResult.mailboxErr,
         SendResult.mailboxErr⟩ [1] [] =
      [Action.panic PanicReason.unwrapNone] :=
  claim_c10_uninitialized_panics (RaftClient.new 0 0 0)
    ⟨SendResult.mailboxErr, SendResult.mailboxErr, SendResult.mailboxErr,
     SendResult.mailboxErr⟩
    ⟨SendResult.mailboxErr, SendResult.mailboxErr, SendResult.mailboxErr,
     SendResult.mailboxErr⟩ (MemoryStorageData.Add 1) [1] [] rfl

/-- Claim C2: a client request handled while the `GetCurrentLeader` query
returns the local NodeId, at any reachable initialized state, sends the
proposal to the local engine exactly once and sends no message to a remote
node in that attempt. -/
theorem claim_c2_local_leader_single_submission (st : RaftClientState)
    (rq : SendResult ClientResponseHandler) (nq : SendResult (Option NetAddr))
    (rm : SendResult ClientResponseHandler) (d : MemoryStorageData)
    (hreach : Reachable st) (hnet : st.net.isSome) :
    countRaftSends (handleClientRequest st
      ⟨SendResult.ok (some st.id), rq, nq, rm⟩ d) = 1
    ∧ countRemoteSends (handleClientRequest st
      ⟨SendResult.ok (some st.id), rq, nq, rm⟩ d) = 0 := by
  have hraft := reachable_net_imp_raft st hreach hnet
  obtain ⟨nt, hn⟩ := Option.isSome_iff_exists.mp hnet
  obtain ⟨e, he⟩ := Option.isSome_iff_exists.mp hraft
  rcases rq with r | _
  · have h1 := (hcr_counts r d).1
    have h2 := (hcr_counts r d).2
    simp only [countRaftSends, countRemoteSends] at h1 h2
    simp [handleClientRequest, hn, he, countRaftSends, countRemoteSends,
      countSends, isRaftSend, isRemoteSend, h1, h2]
  · simp [handleClientRequest, hn, he, countRaftSends, countRemoteSends,
      countSends, isRaftSend, isRemoteSend]

/-- Witness for C2: a founding node (id 0) after its `InitRaft`, with the
leader query answering the local id. -/
theorem claim_c2_local_leader_single_submission_witness :
    countRaftSends (handleClientRequest
      (handleInitRaft (RaftClient.new 0 0 0) ⟨[0], ⟨9⟩, 0, false⟩
        ⟨true, SendResult.ok (), true⟩).1
      ⟨SendResult.ok (some 0), SendResult.mailboxErr, SendResult.mailboxErr,
       SendResult.mailboxErr⟩ (MemoryStorageData.Add 7)) = 1
    ∧ countRemoteSends (handleClientRequest
      (handleInitRaft (RaftClient.new 0 0 0) ⟨[0], ⟨9⟩, 0, false⟩
        ⟨true, SendResult.ok (), true⟩).1
      ⟨SendResult.ok (some 0), SendResult.mailboxErr, SendResult.mailboxErr,
       SendResult.mailboxErr⟩ (MemoryStorageData.Add 7)) = 0 :=
  claim_c2_local_leader_single_submission
    (handleInitRaft (RaftClient.new 0 0 0) ⟨[0], ⟨9⟩, 0, false⟩
      ⟨true, SendResult.ok (), true⟩).1
    SendResult.mailboxErr SendResult.mailboxErr SendResult.mailboxErr
    (MemoryStorageData.Add 7)
    (Reachable.initStep _ _ _ (Reachable.started 0 0 0)) (by decide)

/-- Claim C7: on every path of the client-request handler, the only proposal
payload that can reach the engine or be forwarded is the single
`Payload::new(EntryNormal(d), ResponseMode::Applied)` wrapping the command,
and it is sent at most once. -/
theorem claim_c7_single_applied_proposal (st : RaftClientState)
    (o : ClientOracle) (d : MemoryStorageData) :
    sentProposals (handleClientRequest st o d) = []
    ∨ sentProposals (handleClientRequest st o d) =
        [Payload.new ⟨d⟩ ResponseMode.Applied] := by
  rcases hn : st.net with _ | nt
  · left
    simp [handleClientRequest, hn, sentProposals, proposalOf]
  rcases hl : o.leaderReply with lo | _
  · rcases lo with _ | ld
    · left
      simp [handleClientRequest, hn, hl, sentProposals, proposalOf]
    · rcases hsel : (if ld = st.id then st.raft else none) with _ | e
      · rcases hq : o.nodeReply with no | _
        · rcases no with _ | tgt
          · left
            simp [handleClientRequest, hn, hl, hsel, hq, sentProposals,
              proposalOf]
          · rcases hr : o.remoteReply with r | _
            · right
              simp [handleClientRequest, hn, hl, hsel, hq, hr, sentProposals,
                proposalOf, hcr_sent]
            · right
              simp [handleClientRequest, hn, hl, hsel, hq, hr, sentProposals,
                proposalOf]
        · left
          simp [handleClientRequest, hn, hl, hsel, hq, sentProposals,
            proposalOf]
      · rcases hr : o.raftReply with r | _
        · right
          simp [handleClientRequest, hn, hl, hsel, hr, sentProposals,
            proposalOf, hcr_sent]
        · right
          simp [handleClientRequest, hn, hl, hsel, hr, sentProposals,
            proposalOf]
  · left
    simp [handleClientRequest, hn, hl, sentProposals, proposalOf]

/-- Counterexample to claim C3 as stated: at a leader node with an engine,
when the engine's config-change reply is delivered but carries a FAILED
proposal result, the handler still notifies `AddNode(1)` for the added node —
the proposal's `Result` is ignored (`_res`). -/
theorem claim_c3_counterexample :
    Action.notify (SelfMsg.addNode 1) ∈
      handleChangeConfig
        { id := 0, ring := 0, registry := 0,
          raft := some (RaftBuilder.new 0 [0] ⟨0⟩ 0 0), net := some ⟨0⟩ }
        ⟨SendResult.ok (some 0),
         SendResult.ok (Except.error (ProposeConfigChangeError.err 0)),
         SendResult.mailboxErr, SendResult.mailboxErr⟩ [1] [] := by decide

/-- Amended C3: at a leader node with an engine the config change is proposed
directly to the engine, and the add-member client request is triggered for
every NodeId in the add-set whenever the engine's reply is delivered,
regardless of the proposal result (the `Result` payload is ignored); only a
mailbox failure of the engine send — which panics — prevents the add-member
triggers. -/
theorem claim_c3_amended (st : RaftClientState)
    (nq : SendResult (Option NetAddr)) (rr : SendResult Unit)
    (res : ConfigChangeResponse) (addL remL : List NodeId)
    (nt : NetAddr) (e : MemRaft)
    (hn : st.net = some nt) (hr : st.raft = some e) :
    handleChangeConfig st ⟨SendResult.ok (some st.id), SendResult.ok res,
        nq, rr⟩ addL remL =
      Action.netSend NetMsg.getCurrentLeader ::
      Action.log LogMsg.aboutToProposeConfigChange ::
      Action.raftConfigSend (ProposeConfigChange.new addL remL) ::
      addL.map (fun i => Action.notify (SelfMsg.addNode i))
    ∧ handleChangeConfig st ⟨SendResult.ok (some st.id),
        SendResult.mailboxErr, nq, rr⟩ addL remL =
      [Action.netSend NetMsg.getCurrentLeader,
       Action.log LogMsg.aboutToProposeConfigChange,
       Action.raftConfigSend (ProposeConfigChange.new addL remL),
       Action.panic PanicReason.mailboxFailure] := by
  constructor <;> simp [handleChangeConfig, hn, hr]

/-- Witness for the amended C3: leader id 0, adding nodes `[1, 2]`, engine
reply carrying a failed proposal result. -/
theorem claim_c3_amended_witness :
    handleChangeConfig
        { id := 0, ring := 0, registry := 0,
          raft := some (RaftBuilder.new 0 [0] ⟨0⟩ 0 0), net := some ⟨0⟩ }
        ⟨SendResult.ok (some 0),
         SendResult.ok (Except.error (ProposeConfigChangeError.err 3)),
         SendResult.mailboxErr, SendResult.mailboxErr⟩ [1, 2] [] =
      Action.netSend NetMsg.getCurrentLeader ::
      Action.log LogMsg.aboutToProposeConfigChange ::
      Action.raftConfigSend (ProposeConfigChange.new [1, 2] []) ::
      [1, 2].map (fun i => Action.notify (SelfMsg.addNode i))
    ∧ handleChangeConfig
        { id := 0, ring := 0, registry := 0,
          raft := some (RaftBuilder.new 0 [0] ⟨0⟩ 0 0), net := some ⟨0⟩ }
        ⟨SendResult.ok (some 0), SendResult.mailboxErr,
         SendResult.mailboxErr, SendResult.mailboxErr⟩ [1, 2] [] =
      [Action.netSend NetMsg.getCurrentLeader,
       Action.log LogMsg.aboutToProposeConfigChange,
       Action.raftConfigSend (ProposeConfigChange.new [1, 2] []),
       Action.panic PanicReason.mailboxFailure] :=
  claim_c3_amended
    { id := 0, ring := 0, registry := 0,
      raft := some (RaftBuilder.new 0 [0] ⟨0⟩ 0 0), net := some ⟨0⟩ }
    SendResult.mailboxErr SendResult.mailboxErr
    (Except.error (ProposeConfigChangeError.err 3)) [1, 2] [] ⟨0⟩
    (RaftBuilder.new 0 [0] ⟨0⟩ 0 0) rfl rfl

/-- Counterexample to claim C8 as stated: a config-change request at a
non-leader node whose `GetNodeById(leader)` lookup fails PANICS
("Node 1 not found") — it does not merely log; resolution failure is fatal
for config changes too. -/
theorem claim_c8_counterexample :
    Action.panic (PanicReason.nodeNotFound 1) ∈
      handleChangeConfig
        { id := 0, ring := 0, registry := 0, raft := none, net := some ⟨0⟩ }
        ⟨SendResult.ok (some 1), SendResult.mailboxErr, SendResult.mailboxErr,
         SendResult.mailboxErr⟩ [2] [] := by decide

/-- Amended C8: the two handlers treat failures symmetrically — a failure to
resolve the leader's NodeId to a network target terminates the process
(panic) for BOTH client requests and config-change requests, while a remote
DELIVERY failure after successful resolution is logged-only (no panic) for
both. -/
theorem claim_c8_amended (st : RaftClientState) (ld : NodeId)
    (nt tgt : NetAddr) (d : MemoryStorageData) (addL remL : List NodeId)
    (rq : SendResult ClientResponseHandler)
    (cq : SendResult ConfigChangeResponse)
    (hn : st.net = some nt) (hr : st.raft = none) :
    handleClientRequest st ⟨SendResult.ok (some ld), rq,
        SendResult.mailboxErr, SendResult.mailboxErr⟩ d =
      [Action.netSend NetMsg.getCurrentLeader,
       Action.netSend (NetMsg.getNodeById ld),
       Action.panic (PanicReason.nodeNotFound ld)]
    ∧ handleChangeConfig st ⟨SendResult.ok (some ld), cq,
        SendResult.mailboxErr, SendResult.ok ()⟩ addL remL =
      [Action.netSend NetMsg.getCurrentLeader,
       Action.netSend (NetMsg.getNodeById ld),
       Action.panic (PanicReason.nodeNotFound ld)]
    ∧ hasPanic (handleClientRequest st ⟨SendResult.ok (some ld), rq,
        SendResult.ok (some tgt), SendResult.mailboxErr⟩ d) = false
    ∧ Action.log LogMsg.sendError ∈ handleClientRequest st
        ⟨SendResult.ok (some ld), rq, SendResult.ok (some tgt),
         SendResult.mailboxErr⟩ d
    ∧ hasPanic (handleChangeConfig st ⟨SendResult.ok (some ld), cq,
        SendResult.ok (some tgt), SendResult.mailboxErr⟩ addL remL) = false
    ∧ Action.log LogMsg.sendError ∈ handleChangeConfig st
        ⟨SendResult.ok (some ld), cq, SendResult.ok (some tgt),
         SendResult.mailboxErr⟩ addL remL := by
  refine ⟨?_, ?_, ?_, ?_, ?_, ?_⟩ <;>
    simp [handleClientRequest, handleChangeConfig, hn, hr, hasPanic, isPanic]

/-- Witness for the amended C8: node 0, believed leader 1 unresolvable in the
first pair, resolvable target with failing delivery in the second. -/
theorem claim_c8_amended_witness :
    handleClientRequest
        { id := 0, ring := 0, registry := 0, raft := none, net := some ⟨0⟩ }
        ⟨SendResult.ok (some 1), SendResult.mailboxErr, SendResult.mailboxErr,
         SendResult.mailboxErr⟩ (MemoryStorageData.Add 2) =
      [Action.netSend NetMsg.getCurrentLeader,
       Action.netSend (NetMsg.getNodeById 1),
       Action.panic (PanicReason.nodeNotFound 1)]
    ∧ handleChangeConfig
        { id := 0, ring := 0, registry := 0, raft := none, net := some ⟨0⟩ }
        ⟨SendResult.ok (some 1), SendResult.mailboxErr, SendResult.mailboxErr,
         SendResult.ok ()⟩ [2] [] =
      [Action.netSend NetMsg.getCurrentLeader,
       Action.netSend (NetMsg.getNodeById 1),
       Action.panic (PanicReason.nodeNotFound 1)]
    ∧ hasPanic (handleClientRequest
        { id := 0, ring := 0, registry := 0, raft := none, net := some ⟨0⟩ }
        ⟨SendResult.ok (some 1), SendResult.mailboxErr,
         SendResult.ok (some ⟨3⟩), SendResult.mailboxErr⟩
        (MemoryStorageData.Add 2)) = false
    ∧ Action.log LogMsg.sendError ∈ handleClientRequest
        { id := 0, ring := 0, registry := 0, raft := none, net := some ⟨0⟩ }
        ⟨SendResult.ok (some 1), SendResult.mailboxErr,
         SendResult.ok (some ⟨3⟩), SendResult.mailboxErr⟩
        (MemoryStorageData.Add 2)
    ∧ hasPanic (handleChangeConfig
        { id := 0, ring := 0, registry := 0, raft := none, net := some ⟨0⟩ }
        ⟨SendResult.ok (some 1), SendResult.mailboxErr,
         SendResult.ok (some ⟨3⟩), SendResult.mailboxErr⟩ [2] []) = false
    ∧ Action.log LogMsg.sendError ∈ handleChangeConfig
        { id := 0, ring := 0, registry := 0, raft := none, net := some ⟨0⟩ }
        ⟨SendResult.ok (some 1), SendResult.mailboxErr,
         SendResult.ok (some ⟨3⟩), SendResult.mailboxErr⟩ [2] [] :=
  claim_c8_amended
    { id := 0, ring := 0, registry := 0, raft := none, net := some ⟨0⟩ }
    1 ⟨0⟩ ⟨3⟩ (MemoryStorageData.Add 2) [2] [] SendResult.mailboxErr
    SendResult.mailboxErr rfl rfl

/-- Counterexample to claim C9 as stated: a first `InitRaft` populates the
network handle (tag 5) and the engine; a second `InitRaft` silently replaces
both (handle tag 7, engine rebuilt bound to tag 7) — there is no
at-most-once guard. -/
theorem claim_c9_counterexample :
    ((handleInitRaft (RaftClient.new 0 0 0) ⟨[0], ⟨5⟩, 0, true⟩
        ⟨true, SendResult.ok (), true⟩).1).net = some ⟨5⟩
    ∧ ((handleInitRaft (RaftClient.new 0 0 0) ⟨[0], ⟨5⟩, 0, true⟩
        ⟨true, SendResult.ok (), true⟩).1).raft =
      some (RaftBuilder.new 0 [0] ⟨5⟩ 0 0)
    ∧ ((handleInitRaft
        ((handleInitRaft (RaftClient.new 0 0 0) ⟨[0], ⟨5⟩, 0, true⟩
            ⟨true, SendResult.ok (), true⟩).1)
        ⟨[0], ⟨7⟩, 0, true⟩ ⟨true, SendResult.ok (), true⟩).1).net = some ⟨7⟩
    ∧ ((handleInitRaft
        ((handleInitRaft (RaftClient.new 0 0 0) ⟨[0], ⟨5⟩, 0, true⟩
            ⟨true, SendResult.ok (), true⟩).1)
        ⟨[0], ⟨7⟩, 0, true⟩ ⟨true, SendResult.ok (), true⟩).1).raft =
      some (RaftBuilder.new 0 [0] ⟨7⟩ 0 0) := by decide

/-- Amended C9: every `InitRaft` message unconditionally overwrites both the
network-dispatcher handle and the engine instance with the freshly supplied
values; initialization is not guarded and a second command is silently
re-applied. -/
theorem claim_c9_amended (st : RaftClientState) (msg : InitRaft)
    (o : InitOracle) :
    (handleInitRaft st msg o).1.net = some msg.net
    ∧ (handleInitRaft st msg o).1.raft =
        some (RaftBuilder.new st.id
          (if msg.join_mode then [st.id] else msg.nodes)
          msg.net st.ring msg.server) := by
  constructor <;> simp [handleInitRaft]

end Raftor
